import Mathlib

/-!
# terraform-provider-sshkey: session resolution and SSH-key lifecycle

A shallow embedding of `provider/config.go` (credential and session resolution)
and `provider/resource_ssh_key.go` (create / read / update / delete of one SSH
key), followed by theorems about them.

Conventions of the embedding

* A Go `error` is an `Option Error`; `none` is `nil`.
* A Go pointer that may be `nil` is an `Option`.
* A Go result pair `(value, err)` produced by a library call is an `Except`.
* Library code that the repository calls but does not contain (the Bluemix
  session package, the IAM authentication repository, the VPC SDK, the process
  environment) is a parameter: a record of functions.  Every call made to it is
  appended to a trace, so that "call X is (not) made" is a statement about the
  trace.
* Go strings are byte strings; they are written here as `String`, which agrees
  with the byte view on ASCII text (all literals of the program are ASCII).
* `log.Printf` / `log.Println` lines have no effect on results and are omitted.
-/

namespace provider

/-! ## Go runtime -/

/-- Go `error` values, identified with their message text. -/
abbrev Error := String

/-- Outcome of a Go computation that either returns normally or panics. -/
inductive Go (α : Type) where
  | ret (a : α)
  | panic (msg : String)
deriving Repr, DecidableEq

namespace strings

/-- Go `strings.HasPrefix(s, pre)`. -/
def HasPrefix (s pre : String) : Bool :=
  pre.data.isPrefixOf s.data

/-- Go `strings.Contains(s, substr)`: some suffix of `s` starts with `substr`. -/
def Contains (s substr : String) : Bool :=
  s.data.tails.any (fun t => substr.data.isPrefixOf t)

end strings

/-- Go slice expression `s[n:]`: defined when `n ≤ len(s)`, a run-time panic
("slice bounds out of range") otherwise. -/
def sliceFrom (s : String) (n : Nat) : Option String :=
  if n ≤ s.length then some ⟨s.data.drop n⟩ else none

/-- Go `fmt` verb `%q` applied to an error: its text in double quotes
(escaping of special characters inside the text is not modelled). -/
def fmtQ (e : Error) : String :=
  "\"" ++ e ++ "\""

/-! ## config.go: data model -/

/-- RetryAPIDelay, `5 * time.Second` in nanoseconds (`time.Duration`). -/
def RetryAPIDelay : Int := 5 * 1000000000

/-- The fixed error of a provider configured without credentials. -/
def errEmptyBluemixCredentials : Error :=
  "ibmcloud_api_key or bluemix_api_key or iam_token and iam_refresh_token must be provided. Please see the documentation on how to configure it"

/-- Config stores user provider input. -/
structure Config where
  BluemixAPIKey : String
  Region : String
  ResourceGroup : String
  BluemixTimeout : Int
  RetryCount : Int
  RetryDelay : Int
  RiaasEndPoint : String
  Generation : Int
  IAMToken : String
  IAMRefreshToken : String
  Zone : String
deriving Repr, DecidableEq

/-- The fields of the library type `bluemix.Config` that this program sets or
reads.  Fields left out of a composite literal hold Go zero values (`""`,
`nil`). -/
structure bluemix.Config where
  BluemixAPIKey : String
  IAMAccessToken : String
  IAMRefreshToken : String
  HTTPTimeout : Int
  Region : String
  ResourceGroup : String
  RetryDelay : Option Int
  MaxRetries : Option Int
deriving Repr, DecidableEq

/-- The library type `bxsession.Session`; the program only reads its `Config`. -/
structure bxsession.Session where
  Config : bluemix.Config
deriving Repr, DecidableEq

/-- Session: `BluemixSession` is a pointer, `nil` when no credentials were given. -/
structure Session where
  BluemixSession : Option bxsession.Session
deriving Repr, DecidableEq

/-- The library type `core.BearerTokenAuthenticator`. -/
structure core.BearerTokenAuthenticator where
  BearerToken : String
deriving Repr, DecidableEq

/-- The library type `vpc.VpcV1Options`. -/
structure vpc.VpcV1Options where
  URL : String
  Authenticator : core.BearerTokenAuthenticator
deriving Repr, DecidableEq

/-- The struct `clientSession`, over the type `V` of VPC client handles.  The
resource-controller interface value is never assigned by this program, so its
content is immaterial and it is a `Unit` when present. -/
structure clientSession (V : Type) where
  session : Session
  bluemixSessionErr : Option Error
  vpcErr : Option Error
  vpcAPI : Option V
  resourceControllerConfigErr : Option Error
  resourceControllerServiceAPI : Option Unit

/-- BluemixSession to provide the Bluemix Session. -/
def clientSession.BluemixSession {V : Type} (sess : clientSession V) :
    Option bxsession.Session × Option Error :=
  (sess.session.BluemixSession, sess.bluemixSessionErr)

/-- VpcV1API returns the stored VPC client and the stored error. -/
def clientSession.VpcV1API {V : Type} (sess : clientSession V) : Option V × Option Error :=
  (sess.vpcAPI, sess.vpcErr)

/-- ResourceControllerAPI returns the stored resource-controller client and error. -/
def clientSession.ResourceControllerAPI {V : Type} (sess : clientSession V) :
    Option Unit × Option Error :=
  (sess.resourceControllerServiceAPI, sess.resourceControllerConfigErr)

/-- The function `vpcClient`: the VPC accessor of the client session `meta`. -/
def vpcClient {V : Type} (sess : clientSession V) : Option V × Option Error :=
  sess.VpcV1API

/-! ## config.go: library calls and their trace -/

/-- One observable step of session resolution: a call into a library, or the
assignment to the package-level variable `BluemixRegion`. -/
inductive Effect where
  | sessionNew (cfg : bluemix.Config)
  | newIAMAuthRepository (cfg : bluemix.Config)
  | authenticateAPIKey (apiKey : String)
  | refreshToken
  | newVpcV1 (opts : vpc.VpcV1Options)
  | setBluemixRegion (region : String)
deriving Repr, DecidableEq

/-- The libraries session resolution calls.  `AuthenticateAPIKey` and
`RefreshToken` receive the session configuration by pointer and may rewrite it
(they store the tokens they obtain), so they return the configuration as they
leave it. -/
structure Externals (V : Type) where
  New : bluemix.Config → Except Error bxsession.Session
  NewIAMAuthRepository : bluemix.Config → Option Error
  AuthenticateAPIKey : bluemix.Config → String → Option Error × bluemix.Config
  RefreshToken : bluemix.Config → Option Error × bluemix.Config
  NewVpcV1 : vpc.VpcV1Options → Except Error V
  Getenv : String → String

/-! ## config.go: functions -/

/-- The function `envFallBack` (config.go 256-267); `getenv` is `os.Getenv`. -/
def envFallBack (getenv : String → String) : List String → String → String
  | [], defaultValue => defaultValue
  | k :: envs, defaultValue =>
    let v := getenv k
    if v ≠ "" then
      if strings.Contains v "https://" then v
      else "https://" ++ v ++ "/v1"
    else envFallBack getenv envs defaultValue

/-- The function `newSession` (config.go 179-226), with the trace of its calls. -/
def newSession {V : Type} (ext : Externals V) (c : Config) :
    Except Error Session × List Effect :=
  let ibmSession : Session := { BluemixSession := none }
  if (c.IAMToken ≠ "" ∧ c.IAMRefreshToken = "") ∨ (c.IAMToken = "" ∧ c.IAMRefreshToken ≠ "") then
    (.error "iam_token and iam_refresh_token must be provided", [])
  else
    let afterToken : Except Error Session × List Effect :=
      if c.IAMToken ≠ "" ∧ c.IAMRefreshToken ≠ "" then
        let bmxConfig : bluemix.Config :=
          { BluemixAPIKey := ""
            IAMAccessToken := c.IAMToken
            IAMRefreshToken := c.IAMRefreshToken
            HTTPTimeout := c.BluemixTimeout
            Region := c.Region
            ResourceGroup := c.ResourceGroup
            RetryDelay := some c.RetryDelay
            MaxRetries := some c.RetryCount }
        match ext.New bmxConfig with
        | .error err => (.error err, [Effect.sessionNew bmxConfig])
        | .ok sess => (.ok { ibmSession with BluemixSession := some sess },
                        [Effect.sessionNew bmxConfig])
      else (.ok ibmSession, [])
    match afterToken with
    | (.error err, tr) => (.error err, tr)
    | (.ok ibmSession, tr) =>
      if c.BluemixAPIKey ≠ "" then
        let bmxConfig : bluemix.Config :=
          { BluemixAPIKey := c.BluemixAPIKey
            IAMAccessToken := ""
            IAMRefreshToken := ""
            HTTPTimeout := c.BluemixTimeout
            Region := c.Region
            ResourceGroup := c.ResourceGroup
            RetryDelay := some c.RetryDelay
            MaxRetries := some c.RetryCount }
        match ext.New bmxConfig with
        | .error err => (.error err, tr ++ [Effect.sessionNew bmxConfig])
        | .ok sess => (.ok { ibmSession with BluemixSession := some sess },
                        tr ++ [Effect.sessionNew bmxConfig])
      else (.ok ibmSession, tr)

/-- The function `authenticateAPIKey` (config.go 228-239): the error, the
session as the call leaves it, and the calls made. -/
def authenticateAPIKey {V : Type} (ext : Externals V) (sess : bxsession.Session) :
    Option Error × bxsession.Session × List Effect :=
  let config := sess.Config
  match ext.NewIAMAuthRepository config with
  | some err => (some err, sess, [Effect.newIAMAuthRepository config])
  | none =>
    let r := ext.AuthenticateAPIKey config config.BluemixAPIKey
    (r.1, { Config := r.2 },
      [Effect.newIAMAuthRepository config, Effect.authenticateAPIKey config.BluemixAPIKey])

/-- The function `refreshToken` (config.go 242-254): the error, the session as
the call leaves it, and the calls made. -/
def refreshToken {V : Type} (ext : Externals V) (sess : bxsession.Session) :
    Option Error × bxsession.Session × List Effect :=
  let config := sess.Config
  match ext.NewIAMAuthRepository config with
  | some err => (some err, sess, [Effect.newIAMAuthRepository config])
  | none =>
    let r := ext.RefreshToken config
    (r.1, { Config := r.2 }, [Effect.newIAMAuthRepository config, Effect.refreshToken])

/-- Lines 148-157 of `Config.ClientSession`: the authenticator built from the
session's IAM access token.  The test is for the six bytes `Bearer`, the cut is
at byte 7. -/
def ClientSession.authenticator (IAMAccessToken : String) : Go core.BearerTokenAuthenticator :=
  if strings.HasPrefix IAMAccessToken "Bearer" then
    match sliceFrom IAMAccessToken 7 with
    | some t => .ret { BearerToken := t }
    | none => .panic "slice bounds out of range"
  else
    .ret { BearerToken := IAMAccessToken }

/-- Lines 146-170 of `Config.ClientSession`: publish the region, build the
authenticator and the VPC client, and return the client session.  `bx` is the
Bluemix session as authentication left it and `tr` the trace so far. -/
def ClientSession.configureVpc {V : Type} (ext : Externals V) (c : Config)
    (session : clientSession V) (bx : bxsession.Session) (tr : List Effect) :
    Go (Except Error (clientSession V)) × List Effect :=
  let session := { session with session := { BluemixSession := some bx } }
  let tr := tr ++ [Effect.setBluemixRegion bx.Config.Region]
  match ClientSession.authenticator bx.Config.IAMAccessToken with
  | .panic msg => (.panic msg, tr)
  | .ret authenticator =>
    let vpcurl := "https://" ++ c.Region ++ ".iaas.cloud.ibm.com/v1"
    let vpcoptions : vpc.VpcV1Options :=
      { URL := envFallBack ext.Getenv ["IBMCLOUD_IS_NG_API_ENDPOINT"] vpcurl
        Authenticator := authenticator }
    match ext.NewVpcV1 vpcoptions with
    | .error err =>
      (.ret (.ok { session with
          vpcErr := some ("Error occured while configuring vpc service: " ++ fmtQ err)
          vpcAPI := none }),
        tr ++ [Effect.newVpcV1 vpcoptions])
    | .ok vpcclient =>
      (.ret (.ok { session with vpcAPI := some vpcclient }),
        tr ++ [Effect.newVpcV1 vpcoptions])

/-- The method `Config.ClientSession` (config.go 114-171), with the trace of
its library calls.  The error of `authenticateAPIKey` is tested by an
`if err != nil {}` with an empty body and so has no effect. -/
def ClientSession {V : Type} (ext : Externals V) (c : Config) :
    Go (Except Error (clientSession V)) × List Effect :=
  match newSession ext c with
  | (.error err, tr) => (.ret (.error err), tr)
  | (.ok sess, tr) =>
    let session : clientSession V :=
      { session := sess
        bluemixSessionErr := none
        vpcErr := none
        vpcAPI := none
        resourceControllerConfigErr := none
        resourceControllerServiceAPI := none }
    match sess.BluemixSession with
    | none =>
      (.ret (.ok { session with
          bluemixSessionErr := some errEmptyBluemixCredentials
          vpcErr := some errEmptyBluemixCredentials }), tr)
    | some bx =>
      let afterKey : bxsession.Session × List Effect :=
        if bx.Config.BluemixAPIKey ≠ "" then
          let r := authenticateAPIKey ext bx
          (r.2.1, tr ++ r.2.2)
        else (bx, tr)
      let bx := afterKey.1
      let tr := afterKey.2
      if bx.Config.IAMAccessToken ≠ "" ∧ bx.Config.BluemixAPIKey = "" then
        match refreshToken ext bx with
        | (some err, _, t) => (.ret (.error err), tr ++ t)
        | (none, bx, t) => ClientSession.configureVpc ext c session bx (tr ++ t)
      else ClientSession.configureVpc ext c session bx tr

/-! ## resource_ssh_key.go: data model -/

/-- The library type `vpcv1.ResourceGroupReference` (the fields the program reads). -/
structure vpcv1.ResourceGroupReference where
  ID : String
  Name : String
deriving Repr, DecidableEq

/-- The library type `vpcv1.Key`.  The pointer fields the program dereferences
without a test are plain values (`KeyType` is the field `Type`); `ResourceGroup`,
which it tests for `nil`, is
an `Option`. -/
structure vpcv1.Key where
  ID : String
  Name : String
  PublicKey : String
  KeyType : String
  Fingerprint : String
  Length : Int
  CRN : String
  ResourceGroup : Option vpcv1.ResourceGroupReference
deriving Repr, DecidableEq

/-- The library type `core.DetailedResponse`: the HTTP status code, and the
text the `%s` verb prints for it. -/
structure core.DetailedResponse where
  StatusCode : Int
  text : String
deriving Repr, DecidableEq

/-- The library type `vpcv1.CreateKeyOptions`; `ResourceGroup` holds the `ID`
of the `ResourceGroupIdentity` when one is set. -/
structure vpcv1.CreateKeyOptions where
  PublicKey : String
  Name : String
  ResourceGroup : Option String
deriving Repr, DecidableEq

/-- The library type `vpcv1.KeyPatch`. -/
structure vpcv1.KeyPatch where
  Name : Option String
deriving Repr, DecidableEq

/-- The library method `KeyPatch.AsPatch`: the JSON merge patch of the model,
a map holding the fields that are set. -/
def vpcv1.KeyPatch.AsPatch (keyPatch : vpcv1.KeyPatch) : Except Error (List (String × String)) :=
  match keyPatch.Name with
  | some n => .ok [("name", n)]
  | none => .ok []

/-- The library type `vpcv1.UpdateKeyOptions`. -/
structure vpcv1.UpdateKeyOptions where
  ID : String
  KeyPatch : List (String × String)
deriving Repr, DecidableEq

/-- A failed remote call: the error, and the transport response when there is one. -/
structure Failure where
  err : Error
  response : Option core.DetailedResponse
deriving Repr, DecidableEq

/-- Text printed by the `%s` verb for a `*core.DetailedResponse`. -/
def fmtResponse : Option core.DetailedResponse → String
  | none => "<nil>"
  | some r => r.text

/-- The VPC client `*vpcv1.VpcV1`, as the five remote calls the program makes,
each a transition of the remote state `σ`. -/
structure vpcv1.VpcV1 (σ : Type) where
  ListKeys : σ → Except Failure (List vpcv1.Key) × σ
  CreateKey : vpcv1.CreateKeyOptions → σ → Except Failure vpcv1.Key × σ
  GetKey : String → σ → Except Failure vpcv1.Key × σ
  UpdateKey : vpcv1.UpdateKeyOptions → σ → Except Failure vpcv1.Key × σ
  DeleteKey : String → σ → Option Failure × σ

/-- A remote call, as recorded in the trace. -/
inductive Call where
  | ListKeys
  | CreateKey (options : vpcv1.CreateKeyOptions)
  | GetKey (id : String)
  | UpdateKey (options : vpcv1.UpdateKeyOptions)
  | DeleteKey (id : String)
deriving Repr, DecidableEq

/-- True for the create-key calls of a trace. -/
def Call.isCreateKey : Call → Bool
  | .CreateKey _ => true
  | _ => false

/-- True for the delete-key calls of a trace. -/
def Call.isDeleteKey : Call → Bool
  | .DeleteKey _ => true
  | _ => false

/-- True for the update-key calls of a trace. -/
def Call.isUpdateKey : Call → Bool
  | .UpdateKey _ => true
  | _ => false

/-- True for the get-key calls of a trace. -/
def Call.isGetKey : Call → Bool
  | .GetKey _ => true
  | _ => false

/-- The remote state together with the trace of the remote calls made so far. -/
structure World (σ : Type) where
  remote : σ
  calls : List Call

/-- The host type `schema.ResourceData` for the SSH-key schema: the resource
identity and one field per schema key.  `nameHasChange` is what
`d.HasChange("name")` answers; it is fixed by the host before an operation
runs and is not affected by `d.Set`. -/
structure ResourceData where
  id : String
  name : String
  public_key : String
  type : String
  fingerprint : String
  length : Int
  resource_group : String
  resource_name : String
  resource_crn : String
  resource_group_name : String
  nameHasChange : Bool
deriving Repr, DecidableEq

/-- The host method `d.Id()`. -/
def ResourceData.Id (d : ResourceData) : String := d.id

/-- The host method `d.SetId(v)`. -/
def ResourceData.SetId (d : ResourceData) (v : String) : ResourceData := { d with id := v }

/-- The host method `d.GetOk("resource_group")`: the value, and whether it is
set to something other than the zero value. -/
def ResourceData.GetOkResourceGroup (d : ResourceData) : String × Bool :=
  (d.resource_group, d.resource_group != "")

/-- What a lifecycle function leaves behind: the error it returns, the
resource data and the world. -/
structure Outcome (σ : Type) where
  err : Option Error
  d : ResourceData
  w : World σ

/-! ## resource_ssh_key.go: functions

Every function takes the resource data `d`, the client session `m` (the
`meta` argument) and the world, and returns a `Go (Outcome σ)`.  A method call
on a `nil` client with a `nil` error is a nil-pointer panic. -/

variable {σ : Type}

/-- The loop of `keyGetByName` (resource_ssh_key.go 119-134) over the listed keys. -/
def keyGetByName.loop (d : ResourceData) (name : String) :
    List vpcv1.Key → Option Error × ResourceData
  | [] => (some ("No SSH Key found with name " ++ name), d)
  | key :: keys =>
    if key.Name = name then
      let d := d.SetId key.ID
      let d := { d with
        name := key.Name
        type := key.KeyType
        fingerprint := key.Fingerprint
        length := key.Length
        resource_name := key.Name
        resource_crn := key.CRN }
      let d := match key.ResourceGroup with
        | some rg => { d with resource_group_name := rg.ID }
        | none => d
      (none, d)
    else keyGetByName.loop d name keys

/-- The function `keyGetByName` (resource_ssh_key.go 109-135). -/
def keyGetByName (d : ResourceData) (m : clientSession (vpcv1.VpcV1 σ)) (name : String)
    (w : World σ) : Go (Outcome σ) :=
  match vpcClient m with
  | (_, some err) => .ret ⟨some err, d, w⟩
  | (none, none) => .panic "nil pointer dereference"
  | (some sess, none) =>
    let r := sess.ListKeys w.remote
    let w : World σ := { remote := r.2, calls := w.calls ++ [Call.ListKeys] }
    match r.1 with
    | .error f =>
      .ret ⟨some ("Error Fetching Keys " ++ f.err ++ "\n" ++ fmtResponse f.response), d, w⟩
    | .ok keys =>
      let x := keyGetByName.loop d name keys
      .ret ⟨x.1, x.2, w⟩

/-- Lines 158-168 of `keyCreate`: the create-key options, with the resource
group when `d` has one. -/
def keyCreate.options (d : ResourceData) (name publickey : String) : vpcv1.CreateKeyOptions :=
  let options : vpcv1.CreateKeyOptions :=
    { PublicKey := publickey, Name := name, ResourceGroup := none }
  if d.GetOkResourceGroup.2 then
    { options with ResourceGroup := some d.GetOkResourceGroup.1 }
  else options

/-- The function `keyCreate` (resource_ssh_key.go 153-178). -/
def keyCreate (d : ResourceData) (m : clientSession (vpcv1.VpcV1 σ)) (name publickey : String)
    (w : World σ) : Go (Outcome σ) :=
  match vpcClient m with
  | (_, some err) => .ret ⟨some err, d, w⟩
  | (none, none) => .panic "nil pointer dereference"
  | (some sess, none) =>
    let options := keyCreate.options d name publickey
    let r := sess.CreateKey options w.remote
    let w : World σ := { remote := r.2, calls := w.calls ++ [Call.CreateKey options] }
    match r.1 with
    | .error f =>
      .ret ⟨some ("[DEBUG] Create SSH Key " ++ f.err ++ "\n" ++ fmtResponse f.response), d, w⟩
    | .ok key => .ret ⟨none, d.SetId key.ID, w⟩

/-- The function `keyGet` (resource_ssh_key.go 191-219). -/
def keyGet (d : ResourceData) (m : clientSession (vpcv1.VpcV1 σ)) (id : String)
    (w : World σ) : Go (Outcome σ) :=
  match vpcClient m with
  | (_, some err) => .ret ⟨some err, d, w⟩
  | (none, none) => .panic "nil pointer dereference"
  | (some sess, none) =>
    let r := sess.GetKey id w.remote
    let w : World σ := { remote := r.2, calls := w.calls ++ [Call.GetKey id] }
    match r.1 with
    | .error f =>
      match f.response with
      | some response =>
        if response.StatusCode = 404 then .ret ⟨none, d.SetId "", w⟩
        else
          .ret ⟨some ("Error Getting SSH Key (" ++ id ++ "): " ++ f.err ++ "\n"
            ++ fmtResponse f.response), d, w⟩
      | none =>
        .ret ⟨some ("Error Getting SSH Key (" ++ id ++ "): " ++ f.err ++ "\n"
          ++ fmtResponse f.response), d, w⟩
    | .ok key =>
      let d := { d with
        name := key.Name
        public_key := key.PublicKey
        type := key.KeyType
        fingerprint := key.Fingerprint
        length := key.Length
        resource_name := key.Name
        resource_crn := key.CRN }
      let d := match key.ResourceGroup with
        | some rg => { d with resource_group_name := rg.Name, resource_group := rg.ID }
        | none => d
      .ret ⟨none, d, w⟩

/-- The function `resourceIBMISSSHKeyRead` (resource_ssh_key.go 180-188). -/
def resourceIBMISSSHKeyRead (d : ResourceData) (m : clientSession (vpcv1.VpcV1 σ))
    (w : World σ) : Go (Outcome σ) :=
  let id := d.Id
  match keyGet d m id w with
  | .panic msg => .panic msg
  | .ret r =>
    match r.err with
    | some err => .ret ⟨some err, r.d, r.w⟩
    | none => .ret ⟨none, r.d, r.w⟩

/-- The function `resourceIBMISSSHKeyCreate` (resource_ssh_key.go 137-149). -/
def resourceIBMISSSHKeyCreate (d : ResourceData) (m : clientSession (vpcv1.VpcV1 σ))
    (w : World σ) : Go (Outcome σ) :=
  let name := d.name
  let publickey := d.public_key
  match keyGetByName d m name w with
  | .panic msg => .panic msg
  | .ret r1 =>
    match r1.err with
    | some _ =>
      match keyCreate r1.d m name publickey r1.w with
      | .panic msg => .panic msg
      | .ret r2 =>
        match r2.err with
        | some err => .ret ⟨some err, r2.d, r2.w⟩
        | none => resourceIBMISSSHKeyRead r2.d m r2.w
    | none => resourceIBMISSSHKeyRead r1.d m r1.w

/-- The function `keyUpdate` (resource_ssh_key.go 241-264). -/
def keyUpdate (d : ResourceData) (m : clientSession (vpcv1.VpcV1 σ)) (id name : String)
    (hasChanged : Bool) (w : World σ) : Go (Outcome σ) :=
  match vpcClient m with
  | (_, some err) => .ret ⟨some err, d, w⟩
  | (sess, none) =>
    if hasChanged then
      let keyPatchModel : vpcv1.KeyPatch := { Name := some name }
      match keyPatchModel.AsPatch with
      | .error err => .ret ⟨some ("Error calling asPatch for KeyPatch: " ++ err), d, w⟩
      | .ok keyPatch =>
        let options : vpcv1.UpdateKeyOptions := { ID := id, KeyPatch := keyPatch }
        match sess with
        | none => .panic "nil pointer dereference"
        | some sess =>
          let r := sess.UpdateKey options w.remote
          let w : World σ := { remote := r.2, calls := w.calls ++ [Call.UpdateKey options] }
          match r.1 with
          | .error f =>
            .ret ⟨some ("Error updating vpc SSH Key: " ++ f.err ++ "\n"
              ++ fmtResponse f.response), d, w⟩
          | .ok _ => .ret ⟨none, d, w⟩
    else .ret ⟨none, d, w⟩

/-- The function `resourceIBMISSSHKeyUpdate` (resource_ssh_key.go 221-238). -/
def resourceIBMISSSHKeyUpdate (d : ResourceData) (m : clientSession (vpcv1.VpcV1 σ))
    (w : World σ) : Go (Outcome σ) :=
  let id := d.Id
  let changed : String × Bool :=
    if d.nameHasChange then (d.name, true) else ("", false)
  match keyUpdate d m id changed.1 changed.2 w with
  | .panic msg => .panic msg
  | .ret r =>
    match r.err with
    | some err => .ret ⟨some err, r.d, r.w⟩
    | none => resourceIBMISSSHKeyRead r.d m r.w

/-- The function `keyDelete` (resource_ssh_key.go 277-304). -/
def keyDelete (d : ResourceData) (m : clientSession (vpcv1.VpcV1 σ)) (id : String)
    (w : World σ) : Go (Outcome σ) :=
  match vpcClient m with
  | (_, some _) => .ret ⟨none, d.SetId "", w⟩
  | (none, none) => .panic "nil pointer dereference"
  | (some sess, none) =>
    let r := sess.GetKey id w.remote
    let w : World σ := { remote := r.2, calls := w.calls ++ [Call.GetKey id] }
    match r.1 with
    | .error _ => .ret ⟨none, d.SetId "", w⟩
    | .ok _ =>
      let r := sess.DeleteKey id w.remote
      let w : World σ := { remote := r.2, calls := w.calls ++ [Call.DeleteKey id] }
      .ret ⟨none, d.SetId "", w⟩

/-- The function `resourceIBMISSSHKeyDelete` (resource_ssh_key.go 266-275). -/
def resourceIBMISSSHKeyDelete (d : ResourceData) (m : clientSession (vpcv1.VpcV1 σ))
    (w : World σ) : Go (Outcome σ) :=
  let id := d.Id
  match keyDelete d m id w with
  | .panic msg => .panic msg
  | .ret r =>
    match r.err with
    | some err => .ret ⟨some err, r.d, r.w⟩
    | none => .ret ⟨none, r.d, r.w⟩

/-! ## Concrete libraries, remotes and inputs

Used to evaluate the functions above on explicit inputs. -/

/-- Libraries that always succeed and leave the session configuration as they
find it; the environment has no variable set. -/
def plainExternals : Externals Unit where
  New := fun cfg => .ok { Config := cfg }
  NewIAMAuthRepository := fun _ => none
  AuthenticateAPIKey := fun cfg _ => (none, cfg)
  RefreshToken := fun cfg => (none, cfg)
  NewVpcV1 := fun _ => .ok ()
  Getenv := fun _ => ""

/-- Libraries as `plainExternals`, except that the identity service rejects the
API key. -/
def rejectingExternals : Externals Unit :=
  { plainExternals with AuthenticateAPIKey := fun cfg _ => (some "invalid api key", cfg) }

/-- A provider configuration without any credential. -/
def emptyConfig : Config :=
  { BluemixAPIKey := ""
    Region := "us-south"
    ResourceGroup := ""
    BluemixTimeout := 60 * 1000000000
    RetryCount := 10
    RetryDelay := RetryAPIDelay
    RiaasEndPoint := ""
    Generation := 2
    IAMToken := ""
    IAMRefreshToken := ""
    Zone := "" }

/-- A provider configuration holding an access token and no refresh token. -/
def loneTokenConfig : Config :=
  { emptyConfig with BluemixAPIKey := "k1", IAMToken := "Bearer abc" }

/-- A provider configuration holding only an API key. -/
def apiKeyConfig : Config :=
  { emptyConfig with BluemixAPIKey := "k1" }

/-- A provider configuration holding only a token pair. -/
def tokenPairConfig : Config :=
  { emptyConfig with IAMToken := "Bearer abc", IAMRefreshToken := "r1" }

/-- A provider configuration holding a token pair and an API key. -/
def bothCredentialsConfig : Config :=
  { emptyConfig with BluemixAPIKey := "k1", IAMToken := "Bearer abc", IAMRefreshToken := "r1" }

/-- A provider configuration whose access token is the six bytes `Bearer`. -/
def bareBearerConfig : Config :=
  { emptyConfig with IAMToken := "Bearer", IAMRefreshToken := "r1" }

/-- An in-memory key store as the remote: listing returns the stored keys,
creation appends a key named as asked with the id `id-` followed by the name,
get-key looks the id up and answers 404 when it is absent, update-key applies
the `name` entry of the patch to the key of that id. -/
def memoryVpc : vpcv1.VpcV1 (List vpcv1.Key) where
  ListKeys := fun ks => (.ok ks, ks)
  CreateKey := fun o ks =>
    let key : vpcv1.Key :=
      { ID := "id-" ++ o.Name
        Name := o.Name
        PublicKey := o.PublicKey
        KeyType := "rsa"
        Fingerprint := "SHA256:f"
        Length := 2048
        CRN := "crn:" ++ o.Name
        ResourceGroup := o.ResourceGroup.map (fun g => { ID := g, Name := g }) }
    (.ok key, ks ++ [key])
  GetKey := fun id ks =>
    match ks.find? (fun k => k.ID == id) with
    | some k => (.ok k, ks)
    | none => (.error { err := "Key not found", response := some { StatusCode := 404, text := "404" } }, ks)
  UpdateKey := fun o ks =>
    match ks.find? (fun k => k.ID == o.ID) with
    | some k =>
      let patched : vpcv1.Key :=
        match o.KeyPatch.lookup "name" with
        | some n => { k with Name := n }
        | none => k
      (.ok patched, ks.map (fun x => if x.ID == o.ID then patched else x))
    | none => (.error { err := "Key not found", response := some { StatusCode := 404, text := "404" } }, ks)
  DeleteKey := fun id ks => (none, ks.filter (fun k => k.ID != id))

/-- The in-memory key store behind a transport whose list-keys call fails. -/
def failingListVpc : vpcv1.VpcV1 (List vpcv1.Key) :=
  { memoryVpc with
    ListKeys := fun ks => (.error { err := "connection reset", response := none }, ks) }

/-- The in-memory key store behind a transport whose get-key call fails with
status 500. -/
def failingGetVpc : vpcv1.VpcV1 (List vpcv1.Key) :=
  { memoryVpc with
    GetKey := fun _ ks =>
      (.error { err := "internal error", response := some { StatusCode := 500, text := "500" } }, ks) }

/-- A client session whose VPC client is available. -/
def readySession {σ : Type} (api : vpcv1.VpcV1 σ) : clientSession (vpcv1.VpcV1 σ) :=
  { session := { BluemixSession := none }
    bluemixSessionErr := none
    vpcErr := none
    vpcAPI := some api
    resourceControllerConfigErr := none
    resourceControllerServiceAPI := none }

/-- A planned SSH key, not yet created: only name and public key are set. -/
def plannedKey : ResourceData :=
  { id := ""
    name := "key1"
    public_key := "ssh-rsa AAAA"
    type := ""
    fingerprint := ""
    length := 0
    resource_group := ""
    resource_name := ""
    resource_crn := ""
    resource_group_name := ""
    nameHasChange := false }

/-- The SSH key `id-key1` in the host's state, in sync with the remote: no
field has changed. -/
def syncedKey : ResourceData :=
  { plannedKey with id := "id-key1" }

/-- The SSH key `id-key1` in the host's state with the planned new name `key2`. -/
def renamedKey : ResourceData :=
  { plannedKey with id := "id-key1", name := "key2", nameHasChange := true }

/-- The in-memory key store behind a transport whose update-key call fails
with status 500. -/
def failingUpdateVpc : vpcv1.VpcV1 (List vpcv1.Key) :=
  { memoryVpc with
    UpdateKey := fun _ ks =>
      (.error { err := "internal error", response := some { StatusCode := 500, text := "500" } }, ks) }

/-- The stored SSH key `key1`, as the in-memory store creates it. -/
def storedKey : vpcv1.Key :=
  { ID := "id-key1"
    Name := "key1"
    PublicKey := "ssh-rsa AAAA"
    KeyType := "rsa"
    Fingerprint := "SHA256:f"
    Length := 2048
    CRN := "crn:key1"
    ResourceGroup := none }

/-! ## Helper lemmas -/

/-- The substring test of `strings.Contains` holds exactly when the string
splits around the substring. -/
theorem strings.Contains_iff (s substr : String) :
    strings.Contains s substr = true ↔ ∃ a b : String, s = a ++ substr ++ b := by
  unfold strings.Contains
  rw [List.any_eq_true]
  constructor
  · rintro ⟨t, ht, hp⟩
    rw [List.mem_tails] at ht
    rw [List.isPrefixOf_iff_prefix] at hp
    obtain ⟨a, ha⟩ := ht
    obtain ⟨b, hb⟩ := hp
    refine ⟨⟨a⟩, ⟨b⟩, ?_⟩
    apply String.ext
    simp [String.data_append, ← ha, ← hb]
  · rintro ⟨a, b, rfl⟩
    refine ⟨substr.data ++ b.data, ?_, ?_⟩
    · rw [List.mem_tails]
      exact ⟨a.data, by simp [String.data_append]⟩
    · rw [List.isPrefixOf_iff_prefix]
      exact List.prefix_append _ _

/-- A string with a given prefix contains it. -/
theorem strings.Contains_of_HasPrefix (s pre : String) (h : strings.HasPrefix s pre = true) :
    strings.Contains s pre = true := by
  unfold strings.HasPrefix at h
  unfold strings.Contains
  rw [List.any_eq_true]
  exact ⟨s.data, by simp, h⟩

/-- The name probe's loop over a list without a key of that name reports
"not found" and leaves the resource data as it is. -/
theorem keyGetByName.loop_not_found (d : ResourceData) (name : String) (ks : List vpcv1.Key)
    (h : ∀ k ∈ ks, k.Name ≠ name) :
    keyGetByName.loop d name ks = (some ("No SSH Key found with name " ++ name), d) := by
  induction ks with
  | nil => rfl
  | cons k ks ih =>
    have hk : k.Name ≠ name := h k (List.mem_cons_self _ _)
    have hks : ∀ x ∈ ks, x.Name ≠ name := fun x hx => h x (List.mem_cons_of_mem _ hx)
    simp [keyGetByName.loop, hk, ih hks]

/-- The name probe's loop over a list with a key of that name succeeds and
sets the identity to the id of a listed key of that name. -/
theorem keyGetByName.loop_found (d : ResourceData) (name : String) (ks : List vpcv1.Key)
    (h : ∃ k ∈ ks, k.Name = name) :
    (keyGetByName.loop d name ks).1 = none ∧
      ∃ k ∈ ks, k.Name = name ∧ (keyGetByName.loop d name ks).2.id = k.ID := by
  induction ks with
  | nil => simp at h
  | cons k ks ih =>
    by_cases hk : k.Name = name
    · refine ⟨by simp [keyGetByName.loop, hk], k, List.mem_cons_self _ _, hk, ?_⟩
      cases hrg : k.ResourceGroup <;> simp [keyGetByName.loop, hk, hrg, ResourceData.SetId]
    · have h2 : ∃ x ∈ ks, x.Name = name := by
        obtain ⟨x, hx, hxn⟩ := h
        rcases List.mem_cons.1 hx with rfl | hx
        · exact absurd hxn hk
        · exact ⟨x, hx, hxn⟩
      obtain ⟨h3, x, hx, hxn, hid⟩ := ih h2
      refine ⟨by simpa [keyGetByName.loop, hk] using h3, x, List.mem_cons_of_mem _ hx, hxn, ?_⟩
      simpa [keyGetByName.loop, hk] using hid

/-- With an available VPC client, `resourceIBMISSSHKeyRead` returns normally
after exactly one get-key call for the identity of `d`. -/
theorem resourceIBMISSSHKeyRead_calls {σ : Type} (sess : vpcv1.VpcV1 σ)
    (m : clientSession (vpcv1.VpcV1 σ)) (hm : vpcClient m = (some sess, none))
    (d : ResourceData) (w : World σ) :
    ∃ o, resourceIBMISSSHKeyRead d m w = .ret o ∧
      o.w.calls = w.calls ++ [Call.GetKey d.id] ∧
      o.w.remote = (sess.GetKey d.id w.remote).2 ∧
      (∀ k, (sess.GetKey d.id w.remote).1 = .ok k → o.err = none ∧ o.d.id = d.id) := by
  rcases hg : sess.GetKey d.id w.remote with ⟨res, r1⟩
  cases res with
  | error f =>
    cases hresp : f.response with
    | none => simp [resourceIBMISSSHKeyRead, keyGet, hm, ResourceData.Id, hresp, hg]
    | some resp =>
      by_cases h404 : resp.StatusCode = 404 <;>
        simp [resourceIBMISSSHKeyRead, keyGet, hm, ResourceData.Id, hresp, h404, hg]
  | ok k =>
    cases hrg : k.ResourceGroup <;>
      simp [resourceIBMISSSHKeyRead, keyGet, hm, ResourceData.Id, hrg, hg]

/-- The VPC part of `Config.ClientSession` stores a client or an error. -/
theorem ClientSession.configureVpc_client_or_error {V : Type} (ext : Externals V) (c : Config)
    (session : clientSession V) (bx : bxsession.Session) (tr : List Effect)
    (s : clientSession V)
    (h : (ClientSession.configureVpc ext c session bx tr).1 = .ret (.ok s)) :
    s.vpcErr = none → s.vpcAPI ≠ none := by
  unfold ClientSession.configureVpc at h
  cases ha : ClientSession.authenticator bx.Config.IAMAccessToken with
  | panic msg => simp [ha] at h
  | ret a =>
    simp only [ha] at h
    split at h
    · simp at h
      rw [← h]
      simp
    · simp at h
      rw [← h]
      simp

/-- Every client session returned by `Config.ClientSession` holds a VPC client
or a VPC error: its VPC accessor never returns a nil client with a nil error. -/
theorem ClientSession_vpc_client_or_error {V : Type} (ext : Externals V) (c : Config)
    (s : clientSession V) (h : (ClientSession ext c).1 = .ret (.ok s)) :
    s.vpcErr = none → s.vpcAPI ≠ none := by
  unfold ClientSession at h
  split at h
  · simp at h
  · dsimp only at h
    split at h
    · simp at h
      rw [← h]
      simp
    · repeat' split at h
      all_goals first
        | exact ClientSession.configureVpc_client_or_error ext c _ _ _ s h
        | simp at h

/-! ## Session resolution and Create: claims C1 to C3 -/

/-- C1, as the code behaves: for every Config whose API key, IAM access token
and IAM refresh token are all empty, `Config.ClientSession` returns a client
session and a nil error without calling any library; its `BluemixSession` and
`VpcV1API` accessors return the fixed `errEmptyBluemixCredentials`, but its
`ResourceControllerAPI` accessor returns a nil client together with a nil
error, because `resourceControllerConfigErr` is never assigned. -/
theorem ClientSession_no_credentials {V : Type} (ext : Externals V) (c : Config)
    (hk : c.BluemixAPIKey = "") (ht : c.IAMToken = "") (hr : c.IAMRefreshToken = "") :
    ∃ s : clientSession V, ClientSession ext c = (.ret (.ok s), []) ∧
      s.BluemixSession = (none, some errEmptyBluemixCredentials) ∧
      s.VpcV1API = (none, some errEmptyBluemixCredentials) ∧
      s.ResourceControllerAPI = (none, none) := by
  refine ⟨{ session := { BluemixSession := none },
             bluemixSessionErr := some errEmptyBluemixCredentials,
             vpcErr := some errEmptyBluemixCredentials,
             vpcAPI := none,
             resourceControllerConfigErr := none,
             resourceControllerServiceAPI := none }, ?_, rfl, rfl, rfl⟩
  simp [ClientSession, newSession, hk, ht, hr]

/-- C1 at the configuration without credentials: the resource-controller
accessor of the session returned for `emptyConfig` has a nil error. -/
theorem ClientSession_no_credentials_witness :
    ∃ s : clientSession Unit, ClientSession plainExternals emptyConfig = (.ret (.ok s), []) ∧
      s.BluemixSession = (none, some errEmptyBluemixCredentials) ∧
      s.VpcV1API = (none, some errEmptyBluemixCredentials) ∧
      s.ResourceControllerAPI = (none, none) :=
  ClientSession_no_credentials plainExternals emptyConfig rfl rfl rfl

/-- C2: for every Config in which exactly one of `IAMToken` and
`IAMRefreshToken` is non-empty, whatever the other fields and the libraries
are, `newSession` and `Config.ClientSession` return the token-pair error and no
session, and their trace of library calls is empty: no session is built and no
authenticate, refresh or client-construction call is made. -/
theorem newSession_incomplete_token_pair {V : Type} (ext : Externals V) (c : Config)
    (h : (c.IAMToken ≠ "" ∧ c.IAMRefreshToken = "") ∨ (c.IAMToken = "" ∧ c.IAMRefreshToken ≠ "")) :
    newSession ext c = (.error "iam_token and iam_refresh_token must be provided", []) ∧
    ClientSession ext c =
      (.ret (.error "iam_token and iam_refresh_token must be provided"), []) := by
  have h1 : newSession ext c = (.error "iam_token and iam_refresh_token must be provided", []) := by
    unfold newSession
    simp only [if_pos h]
  exact ⟨h1, by simp [ClientSession, h1]⟩

/-- C2 at a configuration with an access token, no refresh token and an API key. -/
theorem newSession_incomplete_token_pair_witness :
    newSession plainExternals loneTokenConfig =
      (.error "iam_token and iam_refresh_token must be provided", []) ∧
    ClientSession plainExternals loneTokenConfig =
      (.ret (.error "iam_token and iam_refresh_token must be provided"), []) :=
  newSession_incomplete_token_pair plainExternals loneTokenConfig (Or.inl (by decide))

/-- C3: Create is idempotent over the remote key store.  With an available VPC
client, let the first list-keys call return a list without a key named
`d1.name`, the create-key call return `key`, the get-key calls for `key.ID`
succeed, and the second list-keys call return a list that holds a key of that
name, every such key having the id of `key`.  Then running
`resourceIBMISSSHKeyCreate` on `d1`, and again on any `d2` with the same name
(so also with the same public key, which the second run does not consult), returns a nil error both times and sets the identity `key.ID`
both times; the first run calls list-keys, create-key, get-key, the second
only list-keys and get-key, so that create-key is invoked exactly once. -/
theorem create_twice_creates_once {σ : Type} (sess : vpcv1.VpcV1 σ)
    (m : clientSession (vpcv1.VpcV1 σ)) (hm : vpcClient m = (some sess, none))
    (d1 d2 : ResourceData) (hname : d2.name = d1.name)
    (w : World σ) (ks0 ks1 : List vpcv1.Key) (key g1 g2 : vpcv1.Key) (r1 r2 r3 r4 r5 : σ)
    (hl1 : sess.ListKeys w.remote = (.ok ks0, r1))
    (hno : ∀ k ∈ ks0, k.Name ≠ d1.name)
    (hc : sess.CreateKey (keyCreate.options d1 d1.name d1.public_key) r1 = (.ok key, r2))
    (hg1 : sess.GetKey key.ID r2 = (.ok g1, r3))
    (hl2 : sess.ListKeys r3 = (.ok ks1, r4))
    (hin : ∃ k ∈ ks1, k.Name = d1.name)
    (huniq : ∀ k ∈ ks1, k.Name = d1.name → k.ID = key.ID)
    (hg2 : sess.GetKey key.ID r4 = (.ok g2, r5)) :
    ∃ o1 o2 : Outcome σ,
      resourceIBMISSSHKeyCreate d1 m w = .ret o1 ∧
      o1.err = none ∧ o1.d.id = key.ID ∧
      o1.w.calls = w.calls ++ [Call.ListKeys,
        Call.CreateKey (keyCreate.options d1 d1.name d1.public_key), Call.GetKey key.ID] ∧
      resourceIBMISSSHKeyCreate d2 m o1.w = .ret o2 ∧
      o2.err = none ∧ o2.d.id = key.ID ∧
      o2.w.calls = o1.w.calls ++ [Call.ListKeys, Call.GetKey key.ID] ∧
      o2.w.calls.countP Call.isCreateKey = w.calls.countP Call.isCreateKey + 1 := by
  -- first run: not found, create, read
  obtain ⟨o1, ho1, hcalls1, hrem1, hok1⟩ := resourceIBMISSSHKeyRead_calls sess m hm
    (d1.SetId key.ID)
    { remote := r2, calls := w.calls ++ [Call.ListKeys,
        Call.CreateKey (keyCreate.options d1 d1.name d1.public_key)] }
  have hid1 : (d1.SetId key.ID).id = key.ID := rfl
  rw [hid1] at hcalls1 hrem1 hok1
  simp only [hg1] at hrem1 hok1
  have hrun1 : resourceIBMISSSHKeyCreate d1 m w = .ret o1 := by
    simp [resourceIBMISSSHKeyCreate, keyGetByName, keyCreate, hm, hl1,
      keyGetByName.loop_not_found d1 d1.name ks0 hno, hc, ho1]
  -- second run: found, read
  obtain ⟨hnone, k, hk, hkn, hkid⟩ := keyGetByName.loop_found d2 d1.name ks1 hin
  have hkid2 : (keyGetByName.loop d2 d1.name ks1).2.id = key.ID := by
    rw [hkid]; exact huniq k hk hkn
  obtain ⟨o2, ho2, hcalls2, _, hok2⟩ := resourceIBMISSSHKeyRead_calls sess m hm
    (keyGetByName.loop d2 d1.name ks1).2
    { remote := r4, calls := o1.w.calls ++ [Call.ListKeys] }
  rw [hkid2] at hcalls2 hok2
  simp only [hg2] at hok2
  have hrun2 : resourceIBMISSSHKeyCreate d2 m o1.w = .ret o2 := by
    simp [resourceIBMISSSHKeyCreate, keyGetByName, hm, hname, hrem1, hl2, hnone, ho2]
  refine ⟨o1, o2, hrun1, (hok1 g1 rfl).1, (hok1 g1 rfl).2, ?_, hrun2, (hok2 g2 rfl).1,
    (hok2 g2 rfl).2, ?_, ?_⟩
  · simpa using hcalls1
  · simpa using hcalls2
  · rw [hcalls2, hcalls1]
    simp [List.countP_append, Call.isCreateKey]

/-- C3 on the in-memory key store, starting empty: two runs for `key1` leave
one create-key call in the trace and set the identity `id-key1` both times. -/
theorem create_twice_creates_once_witness :
    ∃ o1 o2 : Outcome (List vpcv1.Key),
      resourceIBMISSSHKeyCreate plannedKey (readySession memoryVpc) ⟨[], []⟩ = .ret o1 ∧
      o1.err = none ∧ o1.d.id = "id-key1" ∧
      o1.w.calls = [Call.ListKeys,
        Call.CreateKey { PublicKey := "ssh-rsa AAAA", Name := "key1", ResourceGroup := none },
        Call.GetKey "id-key1"] ∧
      resourceIBMISSSHKeyCreate plannedKey (readySession memoryVpc) o1.w = .ret o2 ∧
      o2.err = none ∧ o2.d.id = "id-key1" ∧
      o2.w.calls = o1.w.calls ++ [Call.ListKeys, Call.GetKey "id-key1"] ∧
      o2.w.calls.countP Call.isCreateKey = 1 :=
  create_twice_creates_once memoryVpc (readySession memoryVpc) rfl plannedKey plannedKey rfl
    ⟨[], []⟩ [] [storedKey] storedKey storedKey storedKey [] [storedKey] [storedKey]
    [storedKey] [storedKey] rfl (by simp) rfl rfl rfl ⟨storedKey, by simp, rfl⟩
    (by intro k hk _; rw [List.mem_singleton.1 hk]) rfl

/-! ## Delete and Read: claims C4 and C5 -/

/-- C4: for every prior id, every remote and every client session that holds a
VPC client or an error, `resourceIBMISSSHKeyDelete` returns a nil error and
leaves the identity empty.  When the VPC client is unavailable no remote call
is made; when the get-key probe fails, with status 404 or in any other way,
the probe is the only call and delete-key is not invoked; when the probe
succeeds, delete-key is invoked once and its result, success or failure, is
ignored. -/
theorem delete_always_clears_identity {σ : Type} (m : clientSession (vpcv1.VpcV1 σ))
    (hwf : m.vpcErr = none → m.vpcAPI ≠ none) (d : ResourceData) (w : World σ) :
    ∃ o : Outcome σ,
      resourceIBMISSSHKeyDelete d m w = .ret o ∧ o.err = none ∧ o.d.id = "" ∧
      (m.vpcErr ≠ none → o.w.calls = w.calls) ∧
      (∀ sess, vpcClient m = (some sess, none) →
        ∀ f, (sess.GetKey d.id w.remote).1 = .error f →
          o.w.calls = w.calls ++ [Call.GetKey d.id] ∧
          o.w.calls.countP Call.isDeleteKey = w.calls.countP Call.isDeleteKey) ∧
      (∀ sess, vpcClient m = (some sess, none) →
        ∀ k, (sess.GetKey d.id w.remote).1 = .ok k →
          o.w.calls = w.calls ++ [Call.GetKey d.id, Call.DeleteKey d.id]) := by
  cases herr : m.vpcErr with
  | some e =>
    simp [resourceIBMISSSHKeyDelete, keyDelete, vpcClient, clientSession.VpcV1API, herr,
      ResourceData.SetId]
  | none =>
    cases hapi : m.vpcAPI with
    | none => exact absurd hapi (hwf herr)
    | some sess =>
      rcases hg : sess.GetKey d.id w.remote with ⟨res, r1⟩
      cases res with
      | error f =>
        simp [resourceIBMISSSHKeyDelete, keyDelete, vpcClient, clientSession.VpcV1API, herr,
          hapi, ResourceData.SetId, ResourceData.Id, hg, List.countP_append, Call.isDeleteKey]
      | ok k =>
        simp [resourceIBMISSSHKeyDelete, keyDelete, vpcClient, clientSession.VpcV1API, herr,
          hapi, ResourceData.SetId, ResourceData.Id, hg]

/-- C4 on the in-memory key store: deleting `id-key1` from an empty store,
where the probe answers 404, clears the identity with the probe as only call. -/
theorem delete_always_clears_identity_witness :
    ∃ o : Outcome (List vpcv1.Key),
      resourceIBMISSSHKeyDelete { plannedKey with id := "id-key1" } (readySession memoryVpc)
        ⟨[], []⟩ = .ret o ∧
      o.err = none ∧ o.d.id = "" ∧ o.w.calls = [Call.GetKey "id-key1"] := by
  obtain ⟨o, h1, h2, h3, _, h5, _⟩ :=
    delete_always_clears_identity (readySession memoryVpc) (fun _ => by simp [readySession])
      { plannedKey with id := "id-key1" } ⟨[], []⟩
  exact ⟨o, h1, h2, h3, (h5 memoryVpc rfl _ rfl).1⟩

/-- C5: with an available VPC client, for every prior id (the non-empty ones
included), when the remote get-key call fails: if the failure carries a
response whose status code is 404, `resourceIBMISSSHKeyRead` returns a nil
error and the identity becomes empty; if it carries no response, or one with
another status code, Read returns a non-nil error and the resource data, the
identity included, is left as it was.  Either way get-key is the only call. -/
theorem read_after_get_key_failure {σ : Type} (sess : vpcv1.VpcV1 σ)
    (m : clientSession (vpcv1.VpcV1 σ)) (hm : vpcClient m = (some sess, none))
    (d : ResourceData) (w : World σ) (f : Failure) (r1 : σ)
    (hg : sess.GetKey d.id w.remote = (.error f, r1)) :
    ∃ o : Outcome σ,
      resourceIBMISSSHKeyRead d m w = .ret o ∧
      o.w.calls = w.calls ++ [Call.GetKey d.id] ∧
      ((∃ resp, f.response = some resp ∧ resp.StatusCode = 404) →
        o.err = none ∧ o.d.id = "") ∧
      ((∀ resp, f.response = some resp → resp.StatusCode ≠ 404) →
        o.err ≠ none ∧ o.d = d ∧ o.d.id = d.id) := by
  cases hresp : f.response with
  | none => simp [resourceIBMISSSHKeyRead, keyGet, hm, ResourceData.Id, hresp, hg]
  | some resp =>
    by_cases h404 : resp.StatusCode = 404 <;>
      simp [resourceIBMISSSHKeyRead, keyGet, hm, ResourceData.Id, ResourceData.SetId, hresp,
        h404, hg]

/-- C5 on two remotes, for the prior id `id-key1`: the empty in-memory store
answers 404 and Read clears the identity without error; the store behind a
transport answering 500 makes Read fail and keep the identity. -/
theorem read_after_get_key_failure_witness :
    (∃ o : Outcome (List vpcv1.Key),
      resourceIBMISSSHKeyRead { plannedKey with id := "id-key1" } (readySession memoryVpc)
        ⟨[], []⟩ = .ret o ∧ o.err = none ∧ o.d.id = "") ∧
    (∃ o : Outcome (List vpcv1.Key),
      resourceIBMISSSHKeyRead { plannedKey with id := "id-key1" } (readySession failingGetVpc)
        ⟨[storedKey], []⟩ = .ret o ∧ o.err ≠ none ∧ o.d.id = "id-key1") := by
  obtain ⟨o, h1, _, h3, _⟩ :=
    read_after_get_key_failure memoryVpc (readySession memoryVpc) rfl
      { plannedKey with id := "id-key1" } ⟨[], []⟩ _ _ rfl
  obtain ⟨o2, k1, _, _, k4⟩ :=
    read_after_get_key_failure failingGetVpc (readySession failingGetVpc) rfl
      { plannedKey with id := "id-key1" } ⟨[storedKey], []⟩ _ _ rfl
  refine ⟨⟨o, h1, h3 ⟨_, rfl, rfl⟩⟩, ⟨o2, k1, ?_⟩⟩
  have h := k4 (by intro resp hresp; cases hresp; decide)
  exact ⟨h.1, h.2.2⟩

/-! ## Endpoint, authentication and precedence: claims C6 to C9 -/

/-- C6, counterexample: the override `proxy.example.com/https://vpc` does not
begin with `https://`, yet `envFallBack` returns it unmodified instead of
`https://proxy.example.com/https://vpc/v1`: the code tests whether the value
contains `https://`, not whether it begins with it. -/
theorem envFallBack_begins_with_counterexample :
    strings.HasPrefix "proxy.example.com/https://vpc" "https://" = false ∧
    envFallBack (fun _ => "proxy.example.com/https://vpc") ["IBMCLOUD_IS_NG_API_ENDPOINT"]
        ("https://" ++ "us-south" ++ ".iaas.cloud.ibm.com/v1")
      = "proxy.example.com/https://vpc" ∧
    envFallBack (fun _ => "proxy.example.com/https://vpc") ["IBMCLOUD_IS_NG_API_ENDPOINT"]
        ("https://" ++ "us-south" ++ ".iaas.cloud.ibm.com/v1")
      ≠ "https://" ++ "proxy.example.com/https://vpc" ++ "/v1" := by
  decide

/-- C6, amended: for every environment and region `r`, with `v` the value of
`IBMCLOUD_IS_NG_API_ENDPOINT` (empty when unset), the VPC endpoint URL computed
by `envFallBack` is the default `https://r.iaas.cloud.ibm.com/v1` when `v` is
empty; `v` itself when `v` contains `https://` anywhere, in particular when it
begins with it; and `https://v/v1` for every other non-empty `v`. -/
theorem envFallBack_vpc_url (getenv : String → String) (r : String) :
    (getenv "IBMCLOUD_IS_NG_API_ENDPOINT" = "" →
      envFallBack getenv ["IBMCLOUD_IS_NG_API_ENDPOINT"] ("https://" ++ r ++ ".iaas.cloud.ibm.com/v1")
        = "https://" ++ r ++ ".iaas.cloud.ibm.com/v1") ∧
    ((∃ a b : String, getenv "IBMCLOUD_IS_NG_API_ENDPOINT" = a ++ "https://" ++ b) →
      envFallBack getenv ["IBMCLOUD_IS_NG_API_ENDPOINT"] ("https://" ++ r ++ ".iaas.cloud.ibm.com/v1")
        = getenv "IBMCLOUD_IS_NG_API_ENDPOINT") ∧
    (strings.HasPrefix (getenv "IBMCLOUD_IS_NG_API_ENDPOINT") "https://" = true →
      envFallBack getenv ["IBMCLOUD_IS_NG_API_ENDPOINT"] ("https://" ++ r ++ ".iaas.cloud.ibm.com/v1")
        = getenv "IBMCLOUD_IS_NG_API_ENDPOINT") ∧
    (getenv "IBMCLOUD_IS_NG_API_ENDPOINT" ≠ "" →
      (¬ ∃ a b : String, getenv "IBMCLOUD_IS_NG_API_ENDPOINT" = a ++ "https://" ++ b) →
      envFallBack getenv ["IBMCLOUD_IS_NG_API_ENDPOINT"] ("https://" ++ r ++ ".iaas.cloud.ibm.com/v1")
        = "https://" ++ getenv "IBMCLOUD_IS_NG_API_ENDPOINT" ++ "/v1") := by
  have key : ∀ v : String, strings.Contains v "https://" = true → v ≠ "" := by
    intro v hv h0
    rw [h0] at hv
    exact absurd hv (by decide)
  refine ⟨?_, ?_, ?_, ?_⟩
  · intro h
    simp [envFallBack, h]
  · intro h
    have hc := (strings.Contains_iff _ _).2 h
    simp [envFallBack, hc, key _ hc]
  · intro h
    have hc := strings.Contains_of_HasPrefix _ _ h
    simp [envFallBack, hc, key _ hc]
  · intro h0 h
    have hc : strings.Contains (getenv "IBMCLOUD_IS_NG_API_ENDPOINT") "https://" = false := by
      rw [Bool.eq_false_iff]
      exact fun hc => h ((strings.Contains_iff _ _).1 hc)
    simp [envFallBack, hc, h0]

/-- C6 at the two overrides of the specification: `private.example.com` yields
`https://private.example.com/v1`, and `https://already-full.example.com` is
used unmodified. -/
theorem envFallBack_vpc_url_witness :
    envFallBack (fun _ => "private.example.com") ["IBMCLOUD_IS_NG_API_ENDPOINT"]
        ("https://" ++ "us-south" ++ ".iaas.cloud.ibm.com/v1")
      = "https://private.example.com/v1" ∧
    envFallBack (fun _ => "https://already-full.example.com") ["IBMCLOUD_IS_NG_API_ENDPOINT"]
        ("https://" ++ "us-south" ++ ".iaas.cloud.ibm.com/v1")
      = "https://already-full.example.com" :=
  ⟨(envFallBack_vpc_url (fun _ => "private.example.com") "us-south").2.2.2 (by decide)
      (fun h => absurd ((strings.Contains_iff _ _).2 h) (by decide)),
   (envFallBack_vpc_url (fun _ => "https://already-full.example.com") "us-south").2.2.1
      (by decide)⟩

/-- C7, at the failing input: with an API key and an identity service that
rejects it, `authenticateAPIKey` returns the error, yet `Config.ClientSession`
returns a client session with a nil error, after having made the
authentication call; the session's VPC client is stored without error. -/
theorem ClientSession_swallows_api_key_error :
    (authenticateAPIKey rejectingExternals
        { Config := { BluemixAPIKey := "k1", IAMAccessToken := "", IAMRefreshToken := "",
                      HTTPTimeout := 60 * 1000000000, Region := "us-south", ResourceGroup := "",
                      RetryDelay := some RetryAPIDelay, MaxRetries := some 10 } }).1
      = some "invalid api key" ∧
    Effect.authenticateAPIKey "k1" ∈ (ClientSession rejectingExternals apiKeyConfig).2 ∧
    ∃ s : clientSession Unit,
      (ClientSession rejectingExternals apiKeyConfig).1 = .ret (.ok s) ∧
      s.VpcV1API = (some (), none) := by
  refine ⟨by decide, by decide, ?_⟩
  exact ⟨_, rfl, rfl⟩

/-- C8, at the failing inputs: the authenticator computation tests for the six
bytes `Bearer` and cuts at byte 7.  On the token `Bearer` it panics (slice
bounds out of range), and so does `Config.ClientSession` for a session holding
that token; on `BearerToken123`, which does not begin with `Bearer ` (with the
blank), it drops seven bytes instead of leaving the token unchanged.  A token
that does begin with `Bearer ` is stripped as claimed. -/
theorem ClientSession_authenticator_off_by_one :
    ClientSession.authenticator "Bearer" = .panic "slice bounds out of range" ∧
    (ClientSession plainExternals bareBearerConfig).1 = .panic "slice bounds out of range" ∧
    ClientSession.authenticator "BearerToken123" = .ret { BearerToken := "oken123" } ∧
    ClientSession.authenticator "Bearer abc" = .ret { BearerToken := "abc" } := by
  refine ⟨by decide, rfl, by decide, by decide⟩

/-- C9, counterexample: for a Config holding a token pair and an API key,
`newSession` builds the bearer-token session first and then replaces it by the
API-key session; the session returned carries the API key and neither token. -/
theorem newSession_token_precedence_counterexample :
    bothCredentialsConfig.IAMToken ≠ "" ∧ bothCredentialsConfig.IAMRefreshToken ≠ "" ∧
    ∃ s : bxsession.Session,
      (newSession plainExternals bothCredentialsConfig).1 = .ok { BluemixSession := some s } ∧
      s.Config.BluemixAPIKey = "k1" ∧
      s.Config.IAMAccessToken = "" ∧
      s.Config.IAMRefreshToken = "" := by
  refine ⟨by decide, by decide, _, rfl, rfl, rfl, rfl⟩

/-- C9, amended: the API key takes precedence.  For every Config whose token
pair is complete or absent: when the API key is non-empty (and, if a token pair
is present too, the session for it was built without error), the session
returned is the one `bxsession.New` builds from the API-key configuration, which
carries the API key and no token; when the API key is empty and the token pair
is present, it is the one built from the bearer-token configuration, which
carries both tokens and no API key.  Both configurations carry the Config's
region, resource group, HTTP timeout, retry count and retry delay, and the
build call is in the trace. -/
theorem newSession_api_key_precedence {V : Type} (ext : Externals V) (c : Config)
    (hpair : c.IAMToken = "" ↔ c.IAMRefreshToken = "") :
    (c.BluemixAPIKey ≠ "" →
      (c.IAMToken ≠ "" → ∃ s0, ext.New
        { BluemixAPIKey := "", IAMAccessToken := c.IAMToken,
          IAMRefreshToken := c.IAMRefreshToken, HTTPTimeout := c.BluemixTimeout,
          Region := c.Region, ResourceGroup := c.ResourceGroup,
          RetryDelay := some c.RetryDelay, MaxRetries := some c.RetryCount } = .ok s0) →
      ∃ cfg : bluemix.Config,
        cfg.BluemixAPIKey = c.BluemixAPIKey ∧ cfg.IAMAccessToken = "" ∧
        cfg.IAMRefreshToken = "" ∧ cfg.Region = c.Region ∧
        cfg.ResourceGroup = c.ResourceGroup ∧ cfg.HTTPTimeout = c.BluemixTimeout ∧
        cfg.MaxRetries = some c.RetryCount ∧ cfg.RetryDelay = some c.RetryDelay ∧
        (newSession ext c).1 = (ext.New cfg).map (fun s => { BluemixSession := some s }) ∧
        Effect.sessionNew cfg ∈ (newSession ext c).2) ∧
    (c.BluemixAPIKey = "" → c.IAMToken ≠ "" →
      ∃ cfg : bluemix.Config,
        cfg.BluemixAPIKey = "" ∧ cfg.IAMAccessToken = c.IAMToken ∧
        cfg.IAMRefreshToken = c.IAMRefreshToken ∧ cfg.Region = c.Region ∧
        cfg.ResourceGroup = c.ResourceGroup ∧ cfg.HTTPTimeout = c.BluemixTimeout ∧
        cfg.MaxRetries = some c.RetryCount ∧ cfg.RetryDelay = some c.RetryDelay ∧
        (newSession ext c).1 = (ext.New cfg).map (fun s => { BluemixSession := some s }) ∧
        (newSession ext c).2 = [Effect.sessionNew cfg]) := by
  constructor
  · intro hk hbuilt
    refine ⟨{ BluemixAPIKey := c.BluemixAPIKey, IAMAccessToken := "", IAMRefreshToken := "",
              HTTPTimeout := c.BluemixTimeout, Region := c.Region,
              ResourceGroup := c.ResourceGroup, RetryDelay := some c.RetryDelay,
              MaxRetries := some c.RetryCount }, rfl, rfl, rfl, rfl, rfl, rfl, rfl, rfl, ?_⟩
    by_cases ht : c.IAMToken = ""
    · have hr : c.IAMRefreshToken = "" := hpair.1 ht
      rcases hn : ext.New
        { BluemixAPIKey := c.BluemixAPIKey, IAMAccessToken := "", IAMRefreshToken := "",
          HTTPTimeout := c.BluemixTimeout, Region := c.Region,
          ResourceGroup := c.ResourceGroup, RetryDelay := some c.RetryDelay,
          MaxRetries := some c.RetryCount } with e | s <;>
        simp [newSession, Except.map, ht, hr, hk, hn]
    · have hr : c.IAMRefreshToken ≠ "" := fun h => ht (hpair.2 h)
      obtain ⟨s0, hs0⟩ := hbuilt ht
      rcases hn : ext.New
        { BluemixAPIKey := c.BluemixAPIKey, IAMAccessToken := "", IAMRefreshToken := "",
          HTTPTimeout := c.BluemixTimeout, Region := c.Region,
          ResourceGroup := c.ResourceGroup, RetryDelay := some c.RetryDelay,
          MaxRetries := some c.RetryCount } with e | s <;>
        simp [newSession, Except.map, ht, hr, hk, hn, hs0]
  · intro hk ht
    have hr : c.IAMRefreshToken ≠ "" := fun h => ht (hpair.2 h)
    refine ⟨{ BluemixAPIKey := "", IAMAccessToken := c.IAMToken,
              IAMRefreshToken := c.IAMRefreshToken,
              HTTPTimeout := c.BluemixTimeout, Region := c.Region,
              ResourceGroup := c.ResourceGroup, RetryDelay := some c.RetryDelay,
              MaxRetries := some c.RetryCount }, rfl, rfl, rfl, rfl, rfl, rfl, rfl, rfl, ?_⟩
    rcases hn : ext.New
        { BluemixAPIKey := "", IAMAccessToken := c.IAMToken,
          IAMRefreshToken := c.IAMRefreshToken,
          HTTPTimeout := c.BluemixTimeout, Region := c.Region,
          ResourceGroup := c.ResourceGroup, RetryDelay := some c.RetryDelay,
          MaxRetries := some c.RetryCount } with e | s <;>
      simp [newSession, Except.map, ht, hr, hk, hn]

/-- C9 at a configuration with a token pair and an API key, which gets the
API-key session, and at one with only a token pair, which gets the
bearer-token session. -/
theorem newSession_api_key_precedence_witness :
    (∃ cfg : bluemix.Config,
        cfg.BluemixAPIKey = "k1" ∧ cfg.IAMAccessToken = "" ∧
        (newSession plainExternals bothCredentialsConfig).1
          = .ok { BluemixSession := some { Config := cfg } }) ∧
    (∃ cfg : bluemix.Config,
        cfg.BluemixAPIKey = "" ∧ cfg.IAMAccessToken = "Bearer abc" ∧
        (newSession plainExternals tokenPairConfig).1
          = .ok { BluemixSession := some { Config := cfg } }) := by
  obtain ⟨cfg, h1, h2, _, _, _, _, _, _, h9, _⟩ :=
    (newSession_api_key_precedence plainExternals bothCredentialsConfig
      (by decide)).1 (by decide) (fun _ => ⟨_, rfl⟩)
  obtain ⟨cfg2, k1, k2, _, _, _, _, _, _, k9, _⟩ :=
    (newSession_api_key_precedence plainExternals tokenPairConfig
      (by decide)).2 (by decide) (by decide)
  exact ⟨⟨cfg, h1, h2, h9⟩, ⟨cfg2, k1, k2, k9⟩⟩

/-! ## Create after a failed name lookup: claim C10 -/

/-- C10, counterexample: on an empty key store behind a transport whose
list-keys call fails, `resourceIBMISSSHKeyCreate` goes on to invoke create-key
and returns a nil error: a failed name lookup is handled as "not found". -/
theorem create_after_failed_lookup_counterexample :
    (failingListVpc.ListKeys []).1 = .error { err := "connection reset", response := none } ∧
    ∃ o : Outcome (List vpcv1.Key),
      resourceIBMISSSHKeyCreate plannedKey (readySession failingListVpc) ⟨[], []⟩ = .ret o ∧
      o.err = none ∧
      o.w.calls = [Call.ListKeys,
        Call.CreateKey { PublicKey := "ssh-rsa AAAA", Name := "key1", ResourceGroup := none },
        Call.GetKey "id-key1"] :=
  ⟨rfl, _, rfl, rfl, rfl⟩

/-- C10, amended: Create does not distinguish a failed name lookup from "not
found".  With an available VPC client, `resourceIBMISSSHKeyCreate` returns
normally, and it invokes create-key exactly once when the list-keys call of
the name probe fails or lists no key of the requested name, and not at all
when list-keys succeeds and lists a key of that name.  When list-keys fails,
create-key is the next call: if it fails too, Create returns a non-nil error;
if it returns a key, Create continues as the Read of that key's id. -/
theorem create_key_invoked_unless_found {σ : Type} (sess : vpcv1.VpcV1 σ)
    (m : clientSession (vpcv1.VpcV1 σ)) (hm : vpcClient m = (some sess, none))
    (d : ResourceData) (w : World σ) :
    (∃ o : Outcome σ,
      resourceIBMISSSHKeyCreate d m w = .ret o ∧
      o.w.calls.countP Call.isCreateKey = w.calls.countP Call.isCreateKey +
        (match (sess.ListKeys w.remote).1 with
          | .ok ks => if ∃ k ∈ ks, k.Name = d.name then 0 else 1
          | .error _ => 1)) ∧
    (∀ f r1, sess.ListKeys w.remote = (.error f, r1) →
      (∀ f2 r2, sess.CreateKey (keyCreate.options d d.name d.public_key) r1 = (.error f2, r2) →
        ∃ o : Outcome σ, resourceIBMISSSHKeyCreate d m w = .ret o ∧ o.err ≠ none ∧
          o.w.calls = w.calls ++ [Call.ListKeys,
            Call.CreateKey (keyCreate.options d d.name d.public_key)]) ∧
      (∀ key r2, sess.CreateKey (keyCreate.options d d.name d.public_key) r1 = (.ok key, r2) →
        resourceIBMISSSHKeyCreate d m w =
          resourceIBMISSSHKeyRead (d.SetId key.ID) m
            { remote := r2, calls := w.calls ++ [Call.ListKeys,
                Call.CreateKey (keyCreate.options d d.name d.public_key)] })) := by
  -- what happens once the name probe has returned an error with `d` untouched
  have tail : ∀ (r1 : σ),
      ∃ o : Outcome σ,
        (match keyCreate d m d.name d.public_key
            { remote := r1, calls := w.calls ++ [Call.ListKeys] } with
          | Go.panic msg => (Go.panic msg : Go (Outcome σ))
          | Go.ret r2 =>
            match r2.err with
            | some err => Go.ret { err := some err, d := r2.d, w := r2.w }
            | none => resourceIBMISSSHKeyRead r2.d m r2.w) = Go.ret o ∧
        o.w.calls.countP Call.isCreateKey = w.calls.countP Call.isCreateKey + 1 := by
    intro r1
    rcases hc : sess.CreateKey (keyCreate.options d d.name d.public_key) r1 with ⟨res, r2⟩
    cases res with
    | error f2 =>
      simp [keyCreate, hm, hc, List.countP_append, Call.isCreateKey]
    | ok key =>
      obtain ⟨o, ho, hcalls, _, _⟩ := resourceIBMISSSHKeyRead_calls sess m hm (d.SetId key.ID)
        { remote := r2, calls := w.calls ++ [Call.ListKeys,
            Call.CreateKey (keyCreate.options d d.name d.public_key)] }
      refine ⟨o, by simp [keyCreate, hm, hc, ho], ?_⟩
      rw [hcalls]
      simp [List.countP_append, Call.isCreateKey]
  constructor
  · rcases hl : sess.ListKeys w.remote with ⟨res, r1⟩
    cases res with
    | error f =>
      obtain ⟨o, ho, hcount⟩ := tail r1
      exact ⟨o, by simpa [resourceIBMISSSHKeyCreate, keyGetByName, hm, hl] using ho,
        by simpa using hcount⟩
    | ok ks =>
      by_cases hfound : ∃ k ∈ ks, k.Name = d.name
      · obtain ⟨hnone, _⟩ := keyGetByName.loop_found d d.name ks hfound
        obtain ⟨o, ho, hcalls, _, _⟩ := resourceIBMISSSHKeyRead_calls sess m hm
          (keyGetByName.loop d d.name ks).2
          { remote := r1, calls := w.calls ++ [Call.ListKeys] }
        refine ⟨o, by simp [resourceIBMISSSHKeyCreate, keyGetByName, hm, hl, hnone, ho], ?_⟩
        rw [hcalls]
        simp [List.countP_append, Call.isCreateKey, hfound]
      · have hno : ∀ k ∈ ks, k.Name ≠ d.name := fun k hk hn => hfound ⟨k, hk, hn⟩
        obtain ⟨o, ho, hcount⟩ := tail r1
        refine ⟨o, ?_, by simpa [hfound] using hcount⟩
        simpa [resourceIBMISSSHKeyCreate, keyGetByName, hm, hl,
          keyGetByName.loop_not_found d d.name ks hno] using ho
  · intro f r1 hl
    constructor
    · intro f2 r2 hc
      simp [resourceIBMISSSHKeyCreate, keyGetByName, keyCreate, hm, hl, hc]
    · intro key r2 hc
      simp [resourceIBMISSSHKeyCreate, keyGetByName, keyCreate, hm, hl, hc]

/-- C10 on the in-memory key store: behind a failing list-keys call create-key
is invoked once; with `key1` listed it is not invoked. -/
theorem create_key_invoked_unless_found_witness :
    (∃ o : Outcome (List vpcv1.Key),
      resourceIBMISSSHKeyCreate plannedKey (readySession failingListVpc) ⟨[], []⟩ = .ret o ∧
      o.w.calls.countP Call.isCreateKey = 1) ∧
    (∃ o : Outcome (List vpcv1.Key),
      resourceIBMISSSHKeyCreate plannedKey (readySession memoryVpc) ⟨[storedKey], []⟩ = .ret o ∧
      o.w.calls.countP Call.isCreateKey = 0) := by
  obtain ⟨o, h1, h2⟩ :=
    (create_key_invoked_unless_found failingListVpc (readySession failingListVpc) rfl
      plannedKey ⟨[], []⟩).1
  obtain ⟨o2, k1, k2⟩ :=
    (create_key_invoked_unless_found memoryVpc (readySession memoryVpc) rfl
      plannedKey ⟨[storedKey], []⟩).1
  refine ⟨⟨o, h1, ?_⟩, ⟨o2, k1, ?_⟩⟩
  · simpa [failingListVpc] using h2
  · rw [k2]
    simp [memoryVpc, storedKey, plannedKey]

/-! ## Update: claim C11 -/

/-- C11: with an available VPC client, when the name has not changed
`resourceIBMISSSHKeyUpdate` is exactly the Read of `d`: it invokes no
update-key call, makes one get-key call for the identity of `d`, and returns
what that Read returns.  When the name has changed it first issues one
update-key call for the identity of `d` whose patch holds the new name and
nothing else; if that call succeeds the rest is exactly the Read of `d`, one
get-key call for its identity, and if it fails Update returns a non-nil error
with the update-key call as its only call. -/
theorem update_patches_only_changed_name {σ : Type} (sess : vpcv1.VpcV1 σ)
    (m : clientSession (vpcv1.VpcV1 σ)) (hm : vpcClient m = (some sess, none))
    (d : ResourceData) (w : World σ) :
    (d.nameHasChange = false →
      resourceIBMISSSHKeyUpdate d m w = resourceIBMISSSHKeyRead d m w ∧
      ∃ o : Outcome σ, resourceIBMISSSHKeyUpdate d m w = .ret o ∧
        o.w.calls = w.calls ++ [Call.GetKey d.id] ∧
        o.w.calls.countP Call.isUpdateKey = w.calls.countP Call.isUpdateKey ∧
        o.w.calls.countP Call.isGetKey = w.calls.countP Call.isGetKey + 1) ∧
    (d.nameHasChange = true →
      (∀ k r1, sess.UpdateKey { ID := d.id, KeyPatch := [("name", d.name)] } w.remote
          = (.ok k, r1) →
        resourceIBMISSSHKeyUpdate d m w =
          resourceIBMISSSHKeyRead d m
            { remote := r1
              calls := w.calls ++
                [Call.UpdateKey { ID := d.id, KeyPatch := [("name", d.name)] }] } ∧
        ∃ o : Outcome σ, resourceIBMISSSHKeyUpdate d m w = .ret o ∧
          o.w.calls = w.calls ++
            [Call.UpdateKey { ID := d.id, KeyPatch := [("name", d.name)] },
             Call.GetKey d.id] ∧
          o.w.calls.countP Call.isUpdateKey = w.calls.countP Call.isUpdateKey + 1 ∧
          o.w.calls.countP Call.isGetKey = w.calls.countP Call.isGetKey + 1) ∧
      (∀ f r1, sess.UpdateKey { ID := d.id, KeyPatch := [("name", d.name)] } w.remote
          = (.error f, r1) →
        ∃ o : Outcome σ, resourceIBMISSSHKeyUpdate d m w = .ret o ∧ o.err ≠ none ∧
          o.w.calls = w.calls ++
            [Call.UpdateKey { ID := d.id, KeyPatch := [("name", d.name)] }])) := by
  refine ⟨fun hch => ?_, fun hch => ⟨fun k r1 hu => ?_, fun f r1 hu => ?_⟩⟩
  · have hrun : resourceIBMISSSHKeyUpdate d m w = resourceIBMISSSHKeyRead d m w := by
      simp [resourceIBMISSSHKeyUpdate, keyUpdate, hm, hch]
    obtain ⟨o, ho, hcalls, _, _⟩ := resourceIBMISSSHKeyRead_calls sess m hm d w
    refine ⟨hrun, o, hrun.trans ho, hcalls, ?_, ?_⟩ <;>
      simp [hcalls, List.countP_append, Call.isUpdateKey, Call.isGetKey]
  · have hrun : resourceIBMISSSHKeyUpdate d m w =
        resourceIBMISSSHKeyRead d m
          { remote := r1
            calls := w.calls ++
              [Call.UpdateKey { ID := d.id, KeyPatch := [("name", d.name)] }] } := by
      simp [resourceIBMISSSHKeyUpdate, keyUpdate, vpcv1.KeyPatch.AsPatch, hm, hch,
        ResourceData.Id, hu]
    obtain ⟨o, ho, hcalls, _, _⟩ := resourceIBMISSSHKeyRead_calls sess m hm d
      { remote := r1
        calls := w.calls ++ [Call.UpdateKey { ID := d.id, KeyPatch := [("name", d.name)] }] }
    have hcalls2 : o.w.calls = w.calls ++
        [Call.UpdateKey { ID := d.id, KeyPatch := [("name", d.name)] }, Call.GetKey d.id] := by
      simpa using hcalls
    refine ⟨hrun, o, hrun.trans ho, hcalls2, ?_, ?_⟩ <;>
      simp [hcalls2, List.countP_append, Call.isUpdateKey, Call.isGetKey]
  · simp [resourceIBMISSSHKeyUpdate, keyUpdate, vpcv1.KeyPatch.AsPatch, hm, hch,
      ResourceData.Id, hu]

/-- C11 on the in-memory key store holding `key1`: an Update without a changed
name makes the get-key call only; an Update to the name `key2` makes one
update-key call whose patch is the new name, then the get-key call. -/
theorem update_patches_only_changed_name_witness :
    (∃ o : Outcome (List vpcv1.Key),
      resourceIBMISSSHKeyUpdate syncedKey (readySession memoryVpc) ⟨[storedKey], []⟩ = .ret o ∧
      o.w.calls = [Call.GetKey "id-key1"]) ∧
    (∃ o : Outcome (List vpcv1.Key),
      resourceIBMISSSHKeyUpdate renamedKey (readySession memoryVpc) ⟨[storedKey], []⟩ = .ret o ∧
      o.w.calls = [Call.UpdateKey { ID := "id-key1", KeyPatch := [("name", "key2")] },
        Call.GetKey "id-key1"]) := by
  obtain ⟨_, o, h1, h2, _⟩ :=
    (update_patches_only_changed_name memoryVpc (readySession memoryVpc) rfl
      syncedKey ⟨[storedKey], []⟩).1 rfl
  obtain ⟨_, o2, k1, k2, _⟩ :=
    ((update_patches_only_changed_name memoryVpc (readySession memoryVpc) rfl
      renamedKey ⟨[storedKey], []⟩).2 rfl).1 _ _ rfl
  exact ⟨⟨o, h1, h2⟩, ⟨o2, k1, k2⟩⟩

end provider
